import Mathlib
set_option linter.unusedVariables false
set_option linter.unreachableTactic false
set_option linter.unusedTactic false
set_option linter.unnecessarySeqFocus false

/-
Verification of the change-detection and event-classification engine of the
rto-intel repository (src/src/detection/differ.py, src/src/detection/events.py,
src/src/storage/models.py).

The embedding models Python values flowing through the detector:
  * JSON-like payloads as the inductive type `Json` (objects are
    insertion-ordered association lists, mirroring Python dicts);
  * `json.dumps` (default arguments: no sort_keys, separators ", " ": ",
    ensure_ascii) as `pyDumps`;
  * the deepdiff library call `DeepDiff(baseline, current, ignore_order=True)`
    as `diffAt "root"`, which reports per-key recursion into dicts,
    order-insensitive matching of list elements (deepdiff with the default
    report_repetition=False matches items by their order-insensitive deep
    equality), scalar changes, and type changes;
  * the runtime error raised by differ.py when it evaluates the name
    `EventCategory`, which events.py defines but differ.py never imports,
    as `Except.error (PyErr.nameError "EventCategory")`.
-/

/-- JSON-like payload tree, as produced by the TGA collector and stored in
baselines.  Objects keep key insertion order, like Python dicts. -/
inductive Json where
  | null : Json
  | bool (b : Bool) : Json
  | int (n : Int) : Json
  | str (s : String) : Json
  | arr (xs : List Json) : Json
  | obj (kvs : List (String × Json)) : Json

/-- First-match association-list lookup (the semantics of Python dict access
for dicts built without duplicate keys). -/
def alook {κ α : Type} [DecidableEq κ] : List (κ × α) → κ → Option α
  | [], _ => none
  | kv :: rest, k => if kv.1 = k then some kv.2 else alook rest k

/-- Whether an association list of object fields has the given key. -/
def hasKey (l : List (String × Json)) (k : String) : Bool :=
  (alook l k).isSome

/-- Python `d.get(k)` on a `Dict[str, Optional[Dict]]`: missing key and stored
None both give None. -/
def dictGet (m : List (String × Option Json)) (k : String) : Option Json :=
  match alook m k with
  | some v => v
  | none => none

/-- Hexadecimal digit, lower case, as emitted by Python json \uXXXX escapes. -/
def hexDig (n : Nat) : Char :=
  Char.ofNat (if n < 10 then 48 + n else 87 + n)

/-- Four-digit hexadecimal rendering used in \uXXXX escapes. -/
def hex4 (n : Nat) : String :=
  String.mk [hexDig (n / 4096 % 16), hexDig (n / 256 % 16), hexDig (n / 16 % 16), hexDig (n % 16)]

/-- Escape of a single character following Python json.dumps with the default
ensure_ascii=True: printable ASCII is kept, quote and backslash are escaped,
control characters use the short escapes or \uXXXX, all non-ASCII characters
use \uXXXX (a surrogate pair beyond the BMP). -/
def escJChar (c : Char) : String :=
  if c.val = 34 then "\\\""
  else if c.val = 92 then "\\\\"
  else if c.val = 10 then "\\n"
  else if c.val = 9 then "\\t"
  else if c.val = 13 then "\\r"
  else if c.val = 8 then "\\b"
  else if c.val = 12 then "\\f"
  else if 32 ≤ c.val ∧ c.val ≤ 126 then String.singleton c
  else if c.val < 65536 then "\\u" ++ hex4 c.val.toNat
  else "\\u" ++ hex4 (55296 + (c.val.toNat - 65536) / 1024) ++ "\\u" ++ hex4 (56320 + (c.val.toNat - 65536) % 1024)

/-- Escape every character of a string body. -/
def escStr : List Char → String
  | [] => ""
  | c :: cs => escJChar c ++ escStr cs

/-- Python json.dumps of a string. -/
def dumpStr (s : String) : String :=
  "\"" ++ escStr s.data ++ "\""

mutual

/-- Python `json.dumps(data)` with default arguments: insertion-order keys,
separators ", " and ": ". -/
def pyDumps : Json → String
  | .null => "null"
  | .bool true => "true"
  | .bool false => "false"
  | .int n => toString n
  | .str s => dumpStr s
  | .arr xs => "[" ++ dumpArr xs ++ "]"
  | .obj kvs => "\x7b" ++ dumpObj kvs ++ "\x7d"

/-- Comma-separated rendering of array elements. -/
def dumpArr : List Json → String
  | [] => ""
  | [x] => pyDumps x
  | x :: y :: xs => pyDumps x ++ ", " ++ dumpArr (y :: xs)

/-- Comma-separated rendering of object entries. -/
def dumpObj : List (String × Json) → String
  | [] => ""
  | [(k, v)] => dumpStr k ++ ": " ++ pyDumps v
  | (k, v) :: kv :: kvs => dumpStr k ++ ": " ++ pyDumps v ++ ", " ++ dumpObj (kv :: kvs)

end

/-- High-level event categories (events.py, class EventCategory). -/
inductive EventCategory where
  | SCOPE
  | REGULATORY
  | REGISTRATION
  | CONTACT
  | RESTRICTION
  | TRAINING
  | NEWS
deriving DecidableEq, Repr

/-- String value of an EventCategory member. -/
def EventCategory.value : EventCategory → String
  | .SCOPE => "Scope"
  | .REGULATORY => "Regulatory"
  | .REGISTRATION => "Registration"
  | .CONTACT => "Contact"
  | .RESTRICTION => "Restriction"
  | .TRAINING => "Training"
  | .NEWS => "News"

/-- Specific event types (events.py, class EventType). -/
inductive EventType where
  | SCOPE_ADDED
  | SCOPE_REMOVED
  | SCOPE_CHANGED
  | REGULATORY_NEW
  | REGULATORY_UPDATED
  | REGISTRATION_STATUS_CHANGED
  | REGISTRATION_EXPIRY_CHANGED
  | REGISTRATION_MANAGER_CHANGED
  | CONTACT_ADDED
  | CONTACT_REMOVED
  | CONTACT_CHANGED
  | RESTRICTION_ADDED
  | RESTRICTION_REMOVED
  | TRAINING_PACKAGE_SUPERSEDED
  | TRAINING_PACKAGE_UPDATED
  | INDUSTRY_NEWS
deriving DecidableEq, Repr

/-- String value of an EventType member. -/
def EventType.value : EventType → String
  | .SCOPE_ADDED => "scope_added"
  | .SCOPE_REMOVED => "scope_removed"
  | .SCOPE_CHANGED => "scope_changed"
  | .REGULATORY_NEW => "regulatory_new"
  | .REGULATORY_UPDATED => "regulatory_updated"
  | .REGISTRATION_STATUS_CHANGED => "registration_status_changed"
  | .REGISTRATION_EXPIRY_CHANGED => "registration_expiry_changed"
  | .REGISTRATION_MANAGER_CHANGED => "registration_manager_changed"
  | .CONTACT_ADDED => "contact_added"
  | .CONTACT_REMOVED => "contact_removed"
  | .CONTACT_CHANGED => "contact_changed"
  | .RESTRICTION_ADDED => "restriction_added"
  | .RESTRICTION_REMOVED => "restriction_removed"
  | .TRAINING_PACKAGE_SUPERSEDED => "training_package_superseded"
  | .TRAINING_PACKAGE_UPDATED => "training_package_updated"
  | .INDUSTRY_NEWS => "industry_news"

/-- Event type to category mapping (events.py, EVENT_CATEGORY_MAP). -/
def EVENT_CATEGORY_MAP : List (EventType × EventCategory) :=
  [ (.SCOPE_ADDED, .SCOPE),
    (.SCOPE_REMOVED, .SCOPE),
    (.SCOPE_CHANGED, .SCOPE),
    (.REGULATORY_NEW, .REGULATORY),
    (.REGULATORY_UPDATED, .REGULATORY),
    (.REGISTRATION_STATUS_CHANGED, .REGISTRATION),
    (.REGISTRATION_EXPIRY_CHANGED, .REGISTRATION),
    (.REGISTRATION_MANAGER_CHANGED, .REGISTRATION),
    (.CONTACT_ADDED, .CONTACT),
    (.CONTACT_REMOVED, .CONTACT),
    (.CONTACT_CHANGED, .CONTACT),
    (.RESTRICTION_ADDED, .RESTRICTION),
    (.RESTRICTION_REMOVED, .RESTRICTION),
    (.TRAINING_PACKAGE_SUPERSEDED, .TRAINING),
    (.TRAINING_PACKAGE_UPDATED, .TRAINING),
    (.INDUSTRY_NEWS, .NEWS) ]

/-- Dict-with-default lookup used by get_event_category, generalized over the
mapping table so the behaviour on types absent from the table is expressible. -/
def categoryFromMap (m : List (EventType × EventCategory)) (t : EventType) : EventCategory :=
  (alook m t).getD .SCOPE

/-- events.py get_event_category: EVENT_CATEGORY_MAP.get(event_type, SCOPE). -/
def get_event_category (t : EventType) : EventCategory :=
  categoryFromMap EVENT_CATEGORY_MAP t

/-- events.py make_source_url: training.gov.au URL with a per-endpoint anchor,
falling back to the bare organisation URL. -/
def make_source_url (rto_code endpoint : String) : String :=
  let base := "https://training.gov.au/organisation/details/" ++ rto_code
  (alook
    [ ("scope", base ++ "#scope"),
      ("regulatory", base ++ "#regulatory"),
      ("registration", base ++ "#registration"),
      ("contacts", base ++ "#contacts"),
      ("restrictions", base ++ "#restrictions") ] endpoint).getD base

/-- models.py TriggerEvent dataclass.  Field defaults are the dataclass
defaults; new_value and old_value are Optional in practice (differ.py passes
None for disappeared and appeared events respectively), and detected_at is an
abstract timestamp. -/
structure TriggerEvent where
  rto_code : String
  rto_name : String
  event_type : String
  event_category : String
  new_value : Option String
  old_value : Option String := none
  detected_at : Option Nat := none
  outreach_score : Option String := none
  suggested_opening : Option String := none
  business_implication : Option String := none
  source_url : Option String := none
  delivery_status : String := "pending"
  outreach_status : String := "New"
  id : Option Int := none
deriving DecidableEq, Repr

/-- Runtime error of the Python interpreter.  differ.py uses the name
EventCategory without importing it, so executing those lines raises
NameError("name EventCategory is not defined"). -/
inductive PyErr where
  | nameError (name : String)
deriving DecidableEq, Repr

mutual

/-- Order-insensitive deep equality of payloads, modelling how the deepdiff
library (DeepDiff with ignore_order=True, default report_repetition=False)
decides that two values are the same: scalars by equality, dicts by key
lookup, lists by order-insensitive membership matching in both directions. -/
def jeqb : Json → Json → Bool
  | .null, .null => true
  | .bool a, .bool b => a == b
  | .int a, .int b => a == b
  | .str a, .str b => a == b
  | .arr xs, .arr ys => jSubF xs ys && jSubR xs ys
  | .obj bs, .obj cs => jObjF bs cs && cs.all (fun kv => hasKey bs kv.1)
  | _, _ => false
termination_by b c => sizeOf b + sizeOf c
decreasing_by all_goals simp_wf <;> omega

/-- Every element of the first list has an order-insensitive match in the
second list. -/
def jSubF : List Json → List Json → Bool
  | [], _ => true
  | x :: xs, ys => jExF x ys && jSubF xs ys
termination_by xs ys => sizeOf xs + sizeOf ys
decreasing_by all_goals simp_wf <;> omega

/-- The element has an order-insensitive match in the list. -/
def jExF : Json → List Json → Bool
  | _, [] => false
  | x, y :: ys => jeqb x y || jExF x ys
termination_by x ys => sizeOf x + sizeOf ys
decreasing_by all_goals simp_wf <;> omega

/-- Every element of the second list has an order-insensitive match in the
first list. -/
def jSubR : List Json → List Json → Bool
  | _, [] => true
  | xs, y :: ys => jExR xs y && jSubR xs ys
termination_by xs ys => sizeOf xs + sizeOf ys
decreasing_by all_goals simp_wf <;> omega

/-- Some element of the list order-insensitively matches the element. -/
def jExR : List Json → Json → Bool
  | [], _ => false
  | x :: xs, y => jeqb x y || jExR xs y
termination_by xs y => sizeOf xs + sizeOf y
decreasing_by all_goals simp_wf <;> omega

/-- Every (key, value) entry of the first dict finds its key in the second
dict with an order-insensitively equal value. -/
def jObjF : List (String × Json) → List (String × Json) → Bool
  | [], _ => true
  | (k, v) :: bs, cs => jFind k v cs && jObjF bs cs
termination_by bs cs => sizeOf bs + sizeOf cs
decreasing_by all_goals simp_wf <;> omega

/-- Look for the key in the dict entries and compare the value found (first
occurrence, i.e. Python dict lookup). -/
def jFind (k : String) (v : Json) : List (String × Json) → Bool
  | [] => false
  | (k2, w) :: cs => if k2 = k then jeqb v w else jFind k v cs
termination_by cs => sizeOf v + sizeOf cs
decreasing_by all_goals simp_wf <;> omega

end

/-- One delta reported by the structural diff, mirroring the entry kinds of a
deepdiff result dict: values_changed, type_changes, dictionary_item_added,
dictionary_item_removed, iterable_item_added, iterable_item_removed. -/
inductive DiffEntry where
  | values_changed (path : String) (oldV newV : Json)
  | type_changes (path : String) (oldV newV : Json)
  | dict_item_added (path : String)
  | dict_item_removed (path : String)
  | iter_item_added (path : String) (v : Json)
  | iter_item_removed (path : String) (v : Json)

/-- Path of a dict entry, rendered the way deepdiff renders it:
root['key'] (the quote characters are written with escapes). -/
def keyPath (p k : String) : String :=
  p ++ "[\x27" ++ k ++ "\x27]"

mutual

/-- Model of DeepDiff(baseline, current, ignore_order=True) at a path:
recursion into dicts by key, order-insensitive matching of list elements
(unmatched ones are reported whole, as deepdiff does for items that have no
order-insensitive equal counterpart), scalar changes at the path, and type
changes on constructor mismatch.  The result is empty exactly when deepdiff
returns an empty diff. -/
def diffAt (p : String) : Json → Json → List DiffEntry
  | .null, .null => []
  | .bool a, .bool b => if a == b then [] else [.values_changed p (.bool a) (.bool b)]
  | .int a, .int b => if a == b then [] else [.values_changed p (.int a) (.int b)]
  | .str a, .str b => if a == b then [] else [.values_changed p (.str a) (.str b)]
  | .arr xs, .arr ys =>
      ((xs.filter (fun x => !(jExF x ys))).map (fun v => .iter_item_removed p v))
        ++ ((ys.filter (fun y => !(jExR xs y))).map (fun v => .iter_item_added p v))
  | .obj bs, .obj cs =>
      diffObj p bs cs
        ++ ((cs.filter (fun kv => !(hasKey bs kv.1))).map (fun kv => .dict_item_added (keyPath p kv.1)))
  | b, c => [.type_changes p b c]
termination_by b c => sizeOf b + sizeOf c
decreasing_by all_goals simp_wf <;> omega

/-- Per-entry handling of baseline dict entries: recurse on the shared key or
report removal. -/
def diffObj (p : String) : List (String × Json) → List (String × Json) → List DiffEntry
  | [], _ => []
  | (k, v) :: bs, cs => diffFind p k v cs ++ diffObj p bs cs
termination_by bs cs => sizeOf bs + sizeOf cs
decreasing_by all_goals simp_wf <;> omega

/-- Find the baseline key in the current dict entries (first occurrence) and
diff the values, or report the key as removed. -/
def diffFind (p k : String) (v : Json) : List (String × Json) → List DiffEntry
  | [] => [.dict_item_removed (keyPath p k)]
  | (k2, w) :: cs => if k2 = k then diffAt (keyPath p k) v w else diffFind p k v cs
termination_by cs => sizeOf v + sizeOf cs
decreasing_by all_goals simp_wf <;> omega

end

/-- Entries of the diff under the deepdiff key "iterable_item_added". -/
def diffIterAdded (d : List DiffEntry) : List (String × Json) :=
  d.filterMap fun e => match e with
    | .iter_item_added p v => some (p, v)
    | _ => none

/-- Entries of the diff under the deepdiff key "iterable_item_removed". -/
def diffIterRemoved (d : List DiffEntry) : List (String × Json) :=
  d.filterMap fun e => match e with
    | .iter_item_removed p v => some (p, v)
    | _ => none

/-- Entries of the diff under the deepdiff key "values_changed":
(path, old_value, new_value). -/
def diffValuesChanged (d : List DiffEntry) : List (String × Json × Json) :=
  d.filterMap fun e => match e with
    | .values_changed p o n => some (p, o, n)
    | _ => none

/-- Result of running a Detector method under the Python interpreter: either a
list of trigger events or a raised exception. -/
abbrev PyResult := Except PyErr (List TriggerEvent)

/-- differ.py ChangeDetector._handle_new_data: one appeared event whose type
defaults to SCOPE_ADDED and is overridden for regulatory and restrictions. -/
def handle_new_data (rto_code rto_name endpoint : String) (data : Json) : List TriggerEvent :=
  let event_type : EventType :=
    if endpoint = "regulatory" then .REGULATORY_NEW
    else if endpoint = "restrictions" then .RESTRICTION_ADDED
    else .SCOPE_ADDED
  [{ rto_code := rto_code, rto_name := rto_name,
     event_type := event_type.value,
     event_category := (get_event_category event_type).value,
     old_value := none,
     new_value := some (pyDumps data),
     source_url := some (make_source_url rto_code endpoint) }]

/-- differ.py ChangeDetector._handle_removed_data: one disappeared event whose
type defaults to SCOPE_REMOVED and is overridden for regulatory and
restrictions. -/
def handle_removed_data (rto_code rto_name endpoint : String) (data : Json) : List TriggerEvent :=
  let event_type : EventType :=
    if endpoint = "regulatory" then .REGULATORY_UPDATED
    else if endpoint = "restrictions" then .RESTRICTION_REMOVED
    else .SCOPE_REMOVED
  [{ rto_code := rto_code, rto_name := rto_name,
     event_type := event_type.value,
     event_category := (get_event_category event_type).value,
     old_value := some (pyDumps data),
     new_value := none,
     source_url := some (make_source_url rto_code endpoint) }]

/-- differ.py ChangeDetector._detect_scope_changes.  The source file loops over
iterable_item_added, iterable_item_removed and values_changed entries and
builds TriggerEvent objects referencing EventCategory, a name never imported
into differ.py, so the first event of any of those loops raises NameError; a
diff holding only other entry kinds falls through and returns []. -/
def detect_scope_changes (rto_code rto_name : String) (current baseline : Json)
    (diff : List DiffEntry) : PyResult :=
  if !(diffIterAdded diff).isEmpty then .error (.nameError "EventCategory")
  else if !(diffIterRemoved diff).isEmpty then .error (.nameError "EventCategory")
  else if !(diffValuesChanged diff).isEmpty then .error (.nameError "EventCategory")
  else .ok []

/-- differ.py ChangeDetector._detect_regulatory_changes.  The body always
builds one TriggerEvent whose event_category argument evaluates the unimported
name EventCategory, so every call raises NameError. -/
def detect_regulatory_changes (rto_code rto_name : String) (current baseline : Json)
    (diff : List DiffEntry) : PyResult :=
  .error (.nameError "EventCategory")

/-- Leading-match test on character lists, for the substring check below. -/
def startsL : List Char → List Char → Bool
  | [], _ => true
  | _ :: _, [] => false
  | a :: as, b :: bs => a == b && startsL as bs

/-- Substring test on character lists. -/
def hasSubL : List Char → List Char → Bool
  | needle, [] => needle.isEmpty
  | needle, c :: rest => startsL needle (c :: rest) || hasSubL needle rest

/-- Python `needle in hay` membership test on strings. -/
def strHasSub (needle hay : String) : Bool :=
  hasSubL needle.toList hay.toList

/-- Python str.lower() on the ASCII paths produced by the diff. -/
def pyLower (s : String) : String :=
  String.mk (s.toList.map Char.toLower)

/-- Event-type selection of differ.py _detect_registration_changes (lines
266-271): pick the subtype from the text of the changed path. -/
def regTypeForPath (path : String) : EventType :=
  if strHasSub "status" (pyLower path) then .REGISTRATION_STATUS_CHANGED
  else if strHasSub "expiry" (pyLower path) || strHasSub "end" (pyLower path) then .REGISTRATION_EXPIRY_CHANGED
  else .REGISTRATION_STATUS_CHANGED

/-- differ.py ChangeDetector._detect_registration_changes: only values_changed
entries are looped over; each iteration selects a subtype from the path text
and then builds a TriggerEvent referencing the unimported name EventCategory,
raising NameError; with no values_changed entries it returns []. -/
def detect_registration_changes (rto_code rto_name : String) (current baseline : Json)
    (diff : List DiffEntry) : PyResult :=
  if !(diffValuesChanged diff).isEmpty then .error (.nameError "EventCategory")
  else .ok []

/-- differ.py ChangeDetector._compare_data: run the structural diff
(DeepDiff(baseline, current, ignore_order=True)), return [] when it is empty,
otherwise route to the endpoint-specific handler, with a single coarse
SCOPE_CHANGED event as the generic fallback for other endpoints. -/
def compare_data (rto_code rto_name endpoint : String) (current baseline : Json) : PyResult :=
  let diff := diffAt "root" baseline current
  if diff.isEmpty then .ok []
  else if endpoint = "scope" then detect_scope_changes rto_code rto_name current baseline diff
  else if endpoint = "regulatory" then detect_regulatory_changes rto_code rto_name current baseline diff
  else if endpoint = "registration" then detect_registration_changes rto_code rto_name current baseline diff
  else .ok
    [{ rto_code := rto_code, rto_name := rto_name,
       event_type := EventType.SCOPE_CHANGED.value,
       event_category := (get_event_category .SCOPE_CHANGED).value,
       old_value := some (pyDumps baseline),
       new_value := some (pyDumps current),
       source_url := some (make_source_url rto_code endpoint) }]

/-- differ.py ChangeDetector._detect_endpoint_changes: the four-row presence
table over (baseline, current). -/
def detect_endpoint_changes (rto_code rto_name endpoint : String)
    (current baseline : Option Json) : PyResult :=
  match baseline, current with
  | none, some c => .ok (handle_new_data rto_code rto_name endpoint c)
  | some b, none => .ok (handle_removed_data rto_code rto_name endpoint b)
  | some b, some c => compare_data rto_code rto_name endpoint c b
  | none, none => .ok []

/-- The fixed endpoint list iterated by detect_all_changes. -/
def ENDPOINTS : List String :=
  ["scope", "regulatory", "registration", "contacts", "restrictions"]

/-- One iteration of the detect_all_changes loop: skip the endpoint when both
sides are absent, otherwise extend the accumulated events, propagating a
raised exception. -/
def detectStep (rto_code rto_name : String)
    (current_data baseline_data : List (String × Option Json))
    (acc : PyResult) (endpoint : String) : PyResult :=
  match acc with
  | .error e => .error e
  | .ok evs =>
    let current := dictGet current_data endpoint
    let baseline := dictGet baseline_data endpoint
    match current, baseline with
    | none, none => .ok evs
    | _, _ =>
      match detect_endpoint_changes rto_code rto_name endpoint current baseline with
      | .ok es => .ok (evs ++ es)
      | .error e => .error e

/-- differ.py ChangeDetector.detect_all_changes: fold over the five fixed
endpoints, accumulating detected events. -/
def detect_all_changes (rto_code rto_name : String)
    (current_data baseline_data : List (String × Option Json)) : PyResult :=
  ENDPOINTS.foldl (detectStep rto_code rto_name current_data baseline_data) (.ok [])

/-- Distinctness of dict keys.  Payloads decoded from JSON (Python dicts)
never carry duplicate keys. -/
def keysNodup : List String → Bool
  | [] => true
  | k :: ks => !(ks.contains k) && keysNodup ks

mutual

/-- Well-formedness of a payload: every object in the tree has pairwise
distinct keys, as is the case for any value built from a Python dict. -/
def wfJ : Json → Bool
  | .null => true
  | .bool _ => true
  | .int _ => true
  | .str _ => true
  | .arr xs => allWf xs
  | .obj kvs => keysNodup (kvs.map Prod.fst) && allWfV kvs
termination_by j => sizeOf j
decreasing_by all_goals simp_wf <;> omega

/-- Well-formedness of every element of a list. -/
def allWf : List Json → Bool
  | [] => true
  | x :: xs => wfJ x && allWf xs
termination_by xs => sizeOf xs
decreasing_by all_goals simp_wf <;> omega

/-- Well-formedness of every value of a dict entry list. -/
def allWfV : List (String × Json) → Bool
  | [] => true
  | (_, v) :: kvs => wfJ v && allWfV kvs
termination_by kvs => sizeOf kvs
decreasing_by all_goals simp_wf <;> omega

end

/-- Structural equality up to reordering of list elements: scalars must agree,
object entry lists must agree pointwise (same keys in the same order, values
again equal up to reordering), and array elements must be in bijection, each
pair related again up to reordering.  This is the hypothesis of the spec
sentence about order-insensitive detection. -/
inductive OEqv : Json → Json → Prop where
  | null : OEqv .null .null
  | bool (b : Bool) : OEqv (.bool b) (.bool b)
  | int (n : Int) : OEqv (.int n) (.int n)
  | str (s : String) : OEqv (.str s) (.str s)
  | arrNil : OEqv (.arr []) (.arr [])
  | arrCons {x y : Json} {xs ys1 ys2 : List Json} :
      OEqv x y → OEqv (.arr xs) (.arr (ys1 ++ ys2)) →
      OEqv (.arr (x :: xs)) (.arr (ys1 ++ y :: ys2))
  | objNil : OEqv (.obj []) (.obj [])
  | objCons {k : String} {v w : Json} {kvs kws : List (String × Json)} :
      OEqv v w → OEqv (.obj kvs) (.obj kws) →
      OEqv (.obj ((k, v) :: kvs)) (.obj ((k, w) :: kws))

/-- Initial lifecycle state of a trigger event (models.py dataclass defaults):
delivery_status "pending", outreach_status "New", enrichment fields and
detected_at unset. -/
def freshEvent (e : TriggerEvent) : Prop :=
  e.delivery_status = "pending" ∧ e.outreach_status = "New" ∧ e.outreach_score = none
    ∧ e.suggested_opening = none ∧ e.business_implication = none ∧ e.detected_at = none

/-- The event produced by a concrete appeared-only run, used by the C10
witness. -/
def c10WitnessEvent : TriggerEvent :=
  { rto_code := "0001", rto_name := "RTO", event_type := "scope_added",
    event_category := "Scope", new_value := some "null", old_value := none,
    source_url := some "https://training.gov.au/organisation/details/0001#contacts" }

/-- New-value projection of a single-event result, none for any other result
shape; used to state concrete serialization facts. -/
def firstNewValue (r : PyResult) : Option (Option String) :=
  match r with
  | .ok [e] => some e.new_value
  | _ => none

/-- Order-insensitive membership unfolds to an existential. -/
lemma jExF_iff (x : Json) (ys : List Json) :
    jExF x ys = true ↔ ∃ y ∈ ys, jeqb x y = true := by
  induction ys with
  | nil => simp [jExF]
  | cons y ys ih => simp [jExF, ih]

/-- Reverse-direction membership unfolds to an existential. -/
lemma jExR_iff (xs : List Json) (y : Json) :
    jExR xs y = true ↔ ∃ x ∈ xs, jeqb x y = true := by
  induction xs with
  | nil => simp [jExR]
  | cons x xs ih => simp [jExR, ih]

/-- Forward list inclusion unfolds to a universal-existential form. -/
lemma jSubF_iff (xs ys : List Json) :
    jSubF xs ys = true ↔ ∀ x ∈ xs, ∃ y ∈ ys, jeqb x y = true := by
  induction xs with
  | nil => simp [jSubF]
  | cons x xs ih => simp [jSubF, ih, jExF_iff]

/-- Reverse list inclusion unfolds to a universal-existential form. -/
lemma jSubR_iff (xs ys : List Json) :
    jSubR xs ys = true ↔ ∀ y ∈ ys, ∃ x ∈ xs, jeqb x y = true := by
  induction ys with
  | nil => simp [jSubR]
  | cons y ys ih => simp [jSubR, ih, jExR_iff]

/-- Dict inclusion check unfolds to a per-entry condition. -/
lemma jObjF_iff (bs cs : List (String × Json)) :
    jObjF bs cs = true ↔ ∀ kv ∈ bs, jFind kv.1 kv.2 cs = true := by
  induction bs with
  | nil => simp [jObjF]
  | cons kv bs ih =>
    obtain ⟨k, v⟩ := kv
    simp [jObjF, ih]

/-- The order-insensitive equality on arrays, unfolded. -/
lemma jeqb_arr (xs ys : List Json) :
    jeqb (.arr xs) (.arr ys) = (jSubF xs ys && jSubR xs ys) := by
  rw [jeqb]

/-- The order-insensitive equality on objects, unfolded. -/
lemma jeqb_obj (bs cs : List (String × Json)) :
    jeqb (.obj bs) (.obj cs) = (jObjF bs cs && cs.all (fun kv => hasKey bs kv.1)) := by
  rw [jeqb]

/-- The structural diff on arrays, unfolded. -/
lemma diffAt_arr (p : String) (xs ys : List Json) :
    diffAt p (.arr xs) (.arr ys) =
      ((xs.filter (fun x => !(jExF x ys))).map (fun v => .iter_item_removed p v))
        ++ ((ys.filter (fun y => !(jExR xs y))).map (fun v => .iter_item_added p v)) := by
  rw [diffAt]

/-- The structural diff on objects, unfolded. -/
lemma diffAt_obj (p : String) (bs cs : List (String × Json)) :
    diffAt p (.obj bs) (.obj cs) =
      diffObj p bs cs
        ++ ((cs.filter (fun kv => !(hasKey bs kv.1))).map (fun kv => .dict_item_added (keyPath p kv.1))) := by
  rw [diffAt]

/-- The per-entry dict diff is empty exactly when each entry diff is empty. -/
lemma diffObj_nil_iff (p : String) (bs cs : List (String × Json)) :
    diffObj p bs cs = [] ↔ ∀ kv ∈ bs, diffFind p kv.1 kv.2 cs = [] := by
  induction bs with
  | nil => simp [diffObj]
  | cons kv bs ih =>
    obtain ⟨k, v⟩ := kv
    rw [diffObj]
    simp [ih]

/-- List well-formedness unfolds to member well-formedness. -/
lemma allWf_iff (l : List Json) : allWf l = true ↔ ∀ x ∈ l, wfJ x = true := by
  induction l with
  | nil => simp [allWf]
  | cons x xs ih => simp [allWf, ih]

/-- Entry-list well-formedness unfolds to per-value well-formedness. -/
lemma allWfV_iff (l : List (String × Json)) : allWfV l = true ↔ ∀ kv ∈ l, wfJ kv.2 = true := by
  induction l with
  | nil => simp [allWfV]
  | cons kv l ih =>
    obtain ⟨k, v⟩ := kv
    simp [allWfV, ih]

/-- Well-formedness of an array node. -/
lemma wfJ_arr (xs : List Json) : wfJ (.arr xs) = allWf xs := by
  rw [wfJ]

/-- Well-formedness of an object node. -/
lemma wfJ_obj (kvs : List (String × Json)) :
    wfJ (.obj kvs) = (keysNodup (kvs.map Prod.fst) && allWfV kvs) := by
  rw [wfJ]

/-- Key distinctness of a cons cell. -/
lemma keysNodup_cons (k : String) (ks : List String) :
    keysNodup (k :: ks) = true ↔ k ∉ ks ∧ keysNodup ks = true := by
  rw [keysNodup]
  simp

/-- Core order-insensitivity fact: payloads that are structurally equal up to
reordering of list elements (with well-formed dict keys) are identified by the
order-insensitive matcher, and the structural diff between them is empty at
every path. -/
lemma oeqv_main {b c : Json} (h : OEqv b c) :
    wfJ b = true → wfJ c = true → jeqb b c = true ∧ ∀ p, diffAt p b c = [] := by
  induction h with
  | null =>
    exact fun _ _ => ⟨by rw [jeqb], fun p => by rw [diffAt]⟩
  | bool b =>
    exact fun _ _ => ⟨by rw [jeqb]; simp, fun p => by rw [diffAt]; simp⟩
  | int n =>
    exact fun _ _ => ⟨by rw [jeqb]; simp, fun p => by rw [diffAt]; simp⟩
  | str s =>
    exact fun _ _ => ⟨by rw [jeqb]; simp, fun p => by rw [diffAt]; simp⟩
  | arrNil =>
    refine fun _ _ => ⟨by simp [jeqb_arr, jSubF, jSubR], fun p => by rw [diffAt_arr]; simp⟩
  | @arrCons x y xs ys1 ys2 hxy harr ih1 ih2 =>
    intro hb hc
    rw [wfJ_arr, allWf_iff] at hb hc
    have hwx : wfJ x = true := hb x (by simp)
    have hwxs : wfJ (Json.arr xs) = true := by
      rw [wfJ_arr, allWf_iff]
      exact fun z hz => hb z (List.mem_cons_of_mem _ hz)
    have hwy : wfJ y = true := hc y (by simp)
    have hwys : wfJ (Json.arr (ys1 ++ ys2)) = true := by
      rw [wfJ_arr, allWf_iff]
      intro z hz
      apply hc
      simp only [List.mem_append] at hz ⊢
      rcases hz with hz | hz
      · exact Or.inl hz
      · exact Or.inr (List.mem_cons_of_mem _ hz)
    obtain ⟨jxy, dxy⟩ := ih1 hwx hwy
    obtain ⟨jarr, darr⟩ := ih2 hwxs hwys
    rw [jeqb_arr, Bool.and_eq_true, jSubF_iff, jSubR_iff] at jarr
    obtain ⟨F2, R2⟩ := jarr
    have lift : ∀ z : Json, z ∈ ys1 ++ ys2 → z ∈ ys1 ++ y :: ys2 := by
      intro z hz
      simp only [List.mem_append, List.mem_cons] at hz ⊢
      tauto
    have F : ∀ a ∈ x :: xs, ∃ b2 ∈ ys1 ++ y :: ys2, jeqb a b2 = true := by
      intro a ha
      rcases List.mem_cons.1 ha with rfl | ha
      · exact ⟨y, by simp, jxy⟩
      · obtain ⟨y2, hy2, hj⟩ := F2 a ha
        exact ⟨y2, lift y2 hy2, hj⟩
    have R : ∀ b2 ∈ ys1 ++ y :: ys2, ∃ a ∈ x :: xs, jeqb a b2 = true := by
      intro b2 hb2
      simp only [List.mem_append, List.mem_cons] at hb2
      rcases hb2 with hb2 | rfl | hb2
      · obtain ⟨a, ha, hj⟩ := R2 b2 (by simp [hb2])
        exact ⟨a, List.mem_cons_of_mem _ ha, hj⟩
      · exact ⟨x, by simp, jxy⟩
      · obtain ⟨a, ha, hj⟩ := R2 b2 (by simp [hb2])
        exact ⟨a, List.mem_cons_of_mem _ ha, hj⟩
    constructor
    · rw [jeqb_arr, Bool.and_eq_true, jSubF_iff, jSubR_iff]
      exact ⟨F, R⟩
    · intro p
      rw [diffAt_arr]
      have f1 : (x :: xs).filter (fun a => !(jExF a (ys1 ++ y :: ys2))) = [] := by
        rw [List.filter_eq_nil_iff]
        intro a ha
        have := (jExF_iff a _).2 (F a ha)
        simp [this]
      have f2 : (ys1 ++ y :: ys2).filter (fun b2 => !(jExR (x :: xs) b2)) = [] := by
        rw [List.filter_eq_nil_iff]
        intro b2 hb2
        have := (jExR_iff _ b2).2 (R b2 hb2)
        simp [this]
      rw [f1, f2]
      simp
  | objNil =>
    refine fun _ _ => ⟨by rw [jeqb_obj]; simp [jObjF], fun p => by rw [diffAt_obj]; simp [diffObj]⟩
  | @objCons k v w kvs kws hvw hobj ih1 ih2 =>
    intro hb hc
    rw [wfJ_obj, Bool.and_eq_true] at hb hc
    obtain ⟨hbk, hbv⟩ := hb
    obtain ⟨hck, hcv⟩ := hc
    simp only [List.map_cons] at hbk hck
    rw [keysNodup_cons] at hbk hck
    obtain ⟨hknb, hbk⟩ := hbk
    obtain ⟨hknc, hck⟩ := hck
    rw [allWfV_iff] at hbv hcv
    have hwv : wfJ v = true := hbv (k, v) (by simp)
    have hww : wfJ w = true := hcv (k, w) (by simp)
    have hwkvs : wfJ (Json.obj kvs) = true := by
      rw [wfJ_obj, Bool.and_eq_true, allWfV_iff]
      exact ⟨hbk, fun kv hkv => hbv kv (List.mem_cons_of_mem _ hkv)⟩
    have hwkws : wfJ (Json.obj kws) = true := by
      rw [wfJ_obj, Bool.and_eq_true, allWfV_iff]
      exact ⟨hck, fun kv hkv => hcv kv (List.mem_cons_of_mem _ hkv)⟩
    obtain ⟨jvw, dvw⟩ := ih1 hwv hww
    obtain ⟨jobj, dobj⟩ := ih2 hwkvs hwkws
    rw [jeqb_obj, Bool.and_eq_true, jObjF_iff, List.all_eq_true] at jobj
    obtain ⟨Fo, Ko⟩ := jobj
    have hne : ∀ kv : String × Json, kv ∈ kvs → k ≠ kv.1 := by
      intro kv hkv hkeq
      exact hknb (hkeq ▸ List.mem_map_of_mem Prod.fst hkv)
    have keystep : ∀ kw : String × Json, kw ∈ (k, w) :: kws →
        hasKey ((k, v) :: kvs) kw.1 = true := by
      intro kw hkw
      rcases List.mem_cons.1 hkw with rfl | hkw
      · simp [hasKey, alook]
      · have h2 := Ko kw hkw
        by_cases hkk : k = kw.1
        · simp [hasKey, alook, hkk]
        · simp only [hasKey, alook, if_neg hkk]
          exact h2
    constructor
    · rw [jeqb_obj, Bool.and_eq_true, jObjF_iff, List.all_eq_true]
      constructor
      · intro kv hkv
        rcases List.mem_cons.1 hkv with rfl | hkv
        · simp only [jFind, if_pos rfl]
          exact jvw
        · simp only [jFind, if_neg (hne kv hkv)]
          exact Fo kv hkv
      · exact keystep
    · intro p
      have dkk := dobj p
      rw [diffAt_obj, List.append_eq_nil, diffObj_nil_iff] at dkk
      obtain ⟨dFo, _⟩ := dkk
      rw [diffAt_obj, List.append_eq_nil]
      constructor
      · rw [diffObj]
        rw [List.append_eq_nil]
        constructor
        · simp only [diffFind, if_pos rfl]
          exact dvw _
        · rw [diffObj_nil_iff]
          intro kv hkv
          simp only [diffFind, if_neg (hne kv hkv)]
          exact dFo kv hkv
      · rw [List.map_eq_nil_iff, List.filter_eq_nil_iff]
        intro kw hkw
        have := keystep kw hkw
        simp [this]

/-- Order equivalence is reflexive. -/
lemma oeqv_refl : ∀ j : Json, OEqv j j
  | .null => .null
  | .bool b => .bool b
  | .int n => .int n
  | .str s => .str s
  | .arr [] => .arrNil
  | .arr (x :: xs) => @OEqv.arrCons x x xs [] xs (oeqv_refl x) (oeqv_refl (.arr xs))
  | .obj [] => .objNil
  | .obj ((k, v) :: kvs) => .objCons (oeqv_refl v) (oeqv_refl (.obj kvs))
termination_by j => sizeOf j
decreasing_by all_goals simp_wf <;> omega

/-- Permuted arrays are order equivalent. -/
lemma oeqv_of_perm {xs ys : List Json} (h : List.Perm xs ys) :
    OEqv (.arr xs) (.arr ys) := by
  induction xs generalizing ys with
  | nil =>
    have := h.symm.eq_nil
    subst this
    exact .arrNil
  | cons x xs ih =>
    have hx : x ∈ ys := h.mem_iff.1 (List.mem_cons_self x xs)
    obtain ⟨ys1, ys2, rfl⟩ := List.append_of_mem hx
    exact OEqv.arrCons (oeqv_refl x) (ih ((h.trans List.perm_middle).cons_inv))

/-- Permutation preserves array well-formedness. -/
lemma wf_perm {xs ys : List Json} (h : List.Perm xs ys)
    (hwf : wfJ (.arr xs) = true) : wfJ (.arr ys) = true := by
  rw [wfJ_arr, allWf_iff] at hwf ⊢
  exact fun z hz => hwf z (h.mem_iff.2 hz)

/-- C6: for every resource and every pair of both-present payloads that are
structurally equal up to reordering of list elements (payloads with distinct
dict keys, as Python dicts always are), the both-present comparison of the
detector yields zero events; in particular, permuting list elements within a
payload never by itself produces an event. -/
theorem order_insensitive_detection :
    (∀ (rto_code rto_name endpoint : String) (b c : Json),
        OEqv b c → wfJ b = true → wfJ c = true →
        compare_data rto_code rto_name endpoint c b = .ok [])
    ∧ (∀ (rto_code rto_name endpoint : String) (xs ys : List Json),
        List.Perm xs ys → wfJ (.arr xs) = true →
        compare_data rto_code rto_name endpoint (.arr ys) (.arr xs) = .ok []) := by
  have main : ∀ (rto_code rto_name endpoint : String) (b c : Json),
      OEqv b c → wfJ b = true → wfJ c = true →
      compare_data rto_code rto_name endpoint c b = .ok [] := by
    intro code name ep b c h hb hc
    have hd := (oeqv_main h hb hc).2 "root"
    simp [compare_data, hd]
  refine ⟨main, ?_⟩
  intro code name ep xs ys h hwf
  exact main code name ep (.arr xs) (.arr ys) (oeqv_of_perm h) hwf (wf_perm h hwf)

/-- Witness for C6: swapping the two elements of a concrete scope array is not
reported as a change. -/
theorem order_insensitive_detection_witness :
    compare_data "0001" "RTO" "scope" (.arr [Json.int 2, Json.int 1]) (.arr [Json.int 1, Json.int 2]) = .ok [] :=
  order_insensitive_detection.2 "0001" "RTO" "scope" [Json.int 1, Json.int 2] [Json.int 2, Json.int 1]
    (List.Perm.swap (Json.int 2) (Json.int 1) [])
    (by simp [wfJ, allWf])

/-- A raised exception propagates through the remaining endpoint loop. -/
lemma detect_foldl_error (rto_code rto_name : String)
    (cur base : List (String × Option Json)) (e : PyErr) :
    ∀ eps : List String, eps.foldl (detectStep rto_code rto_name cur base) (.error e) = .error e := by
  intro eps
  induction eps with
  | nil => rfl
  | cons ep eps ih => rw [List.foldl_cons]; exact ih

/-- C2: per-resource outcome follows the four-row presence table: both absent
gives no event, appeared gives exactly one event with old side null, disappeared
gives exactly one event with new side null, and both present is handed to the
structural diff comparison, which yields no events when the diff is empty. -/
theorem endpoint_decision_table :
    ∀ (rto_code rto_name endpoint : String) (x : Json),
      detect_endpoint_changes rto_code rto_name endpoint none none = .ok []
      ∧ (∃ e, detect_endpoint_changes rto_code rto_name endpoint (some x) none = .ok [e]
          ∧ e.old_value = none ∧ e.new_value = some (pyDumps x))
      ∧ (∃ e, detect_endpoint_changes rto_code rto_name endpoint none (some x) = .ok [e]
          ∧ e.old_value = some (pyDumps x) ∧ e.new_value = none)
      ∧ (∀ b c : Json, detect_endpoint_changes rto_code rto_name endpoint (some c) (some b)
            = compare_data rto_code rto_name endpoint c b)
      ∧ (∀ b c : Json, diffAt "root" b c = [] →
            compare_data rto_code rto_name endpoint c b = .ok []) := by
  intro code name ep x
  refine ⟨rfl, ⟨_, rfl, rfl, rfl⟩, ⟨_, rfl, rfl, rfl⟩, fun b c => rfl, fun b c h => ?_⟩
  simp [compare_data, h]

/-- Witness for C2: comparing two equal null payloads yields no events. -/
theorem endpoint_decision_table_witness :
    compare_data "0001" "RTO" "contacts" Json.null Json.null = .ok [] :=
  (endpoint_decision_table "0001" "RTO" "contacts" Json.null).2.2.2.2 Json.null Json.null
    (by rw [diffAt])

/-- C3: appeared and disappeared events are routed per resource (scope pair by
default, regulatory pair, restrictions pair, scope pair for anything else) and
carry mirrored old/new serialized payloads. -/
theorem appeared_disappeared_routing :
    ∀ (rto_code rto_name endpoint : String) (x : Json),
      ∃ e e2,
        handle_new_data rto_code rto_name endpoint x = [e]
        ∧ handle_removed_data rto_code rto_name endpoint x = [e2]
        ∧ e.old_value = none ∧ e.new_value = some (pyDumps x)
        ∧ e2.old_value = some (pyDumps x) ∧ e2.new_value = none
        ∧ (endpoint = "scope" →
            e.event_type = EventType.SCOPE_ADDED.value
            ∧ e2.event_type = EventType.SCOPE_REMOVED.value)
        ∧ (endpoint = "regulatory" →
            e.event_type = EventType.REGULATORY_NEW.value
            ∧ e2.event_type = EventType.REGULATORY_UPDATED.value)
        ∧ (endpoint = "restrictions" →
            e.event_type = EventType.RESTRICTION_ADDED.value
            ∧ e2.event_type = EventType.RESTRICTION_REMOVED.value)
        ∧ (endpoint ≠ "regulatory" → endpoint ≠ "restrictions" →
            e.event_type = EventType.SCOPE_ADDED.value
            ∧ e2.event_type = EventType.SCOPE_REMOVED.value) := by
  intro code name ep x
  refine ⟨_, _, rfl, rfl, rfl, rfl, rfl, rfl, ?_, ?_, ?_, ?_⟩
  · intro h; subst h; exact ⟨rfl, rfl⟩
  · intro h; subst h; exact ⟨rfl, rfl⟩
  · intro h; subst h; exact ⟨rfl, rfl⟩
  · intro h1 h2
    constructor
    · show (if ep = "regulatory" then EventType.REGULATORY_NEW
        else if ep = "restrictions" then EventType.RESTRICTION_ADDED
        else EventType.SCOPE_ADDED).value = EventType.SCOPE_ADDED.value
      rw [if_neg h1, if_neg h2]
    · show (if ep = "regulatory" then EventType.REGULATORY_UPDATED
        else if ep = "restrictions" then EventType.RESTRICTION_REMOVED
        else EventType.SCOPE_REMOVED).value = EventType.SCOPE_REMOVED.value
      rw [if_neg h1, if_neg h2]

/-- Witness for C3: the registration resource is not one of the three special
cases, so its appeared and disappeared events use the scope pair. -/
theorem appeared_disappeared_routing_witness :
    ∃ e e2, handle_new_data "0001" "RTO" "registration" Json.null = [e]
      ∧ handle_removed_data "0001" "RTO" "registration" Json.null = [e2]
      ∧ e.event_type = EventType.SCOPE_ADDED.value
      ∧ e2.event_type = EventType.SCOPE_REMOVED.value := by
  obtain ⟨e, e2, h1, h2, _, _, _, _, _, _, _, hd⟩ :=
    appeared_disappeared_routing "0001" "RTO" "registration" Json.null
  obtain ⟨ht, ht2⟩ := hd (by decide) (by decide)
  exact ⟨e, e2, h1, h2, ht, ht2⟩

/-- C7: the event-type-to-category table is total over the closed enum, the
category enum has exactly the 7 documented members, get_event_category agrees
with the table, and a type absent from a mapping table resolves to Scope. -/
theorem category_lookup_total :
    (∀ t : EventType, ∃ c : EventCategory,
        alook EVENT_CATEGORY_MAP t = some c ∧ get_event_category t = c)
    ∧ (∀ c : EventCategory,
        c ∈ [EventCategory.SCOPE, .REGULATORY, .REGISTRATION, .CONTACT, .RESTRICTION, .TRAINING, .NEWS])
    ∧ [EventCategory.SCOPE, .REGULATORY, .REGISTRATION, .CONTACT, .RESTRICTION, .TRAINING, .NEWS].Nodup
    ∧ (∀ (m : List (EventType × EventCategory)) (t : EventType),
        alook m t = none → categoryFromMap m t = .SCOPE) := by
  refine ⟨?_, ?_, ?_, ?_⟩
  · intro t; cases t <;> exact ⟨_, rfl, rfl⟩
  · intro c; cases c <;> simp
  · decide
  · intro m t h; simp [categoryFromMap, h]

/-- Witness for C7: a type looked up in an empty table resolves to Scope. -/
theorem category_lookup_total_witness :
    categoryFromMap [] EventType.INDUSTRY_NEWS = .SCOPE :=
  category_lookup_total.2.2.2 [] EventType.INDUSTRY_NEWS rfl

/-- C8: detection is a pure function of its four arguments; two invocations on
inputs with identical per-endpoint lookups return identical event lists. -/
theorem detection_deterministic :
    ∀ (rto_code rto_name : String)
      (cur1 base1 cur2 base2 : List (String × Option Json)),
      (∀ k, dictGet cur1 k = dictGet cur2 k) →
      (∀ k, dictGet base1 k = dictGet base2 k) →
      detect_all_changes rto_code rto_name cur1 base1
        = detect_all_changes rto_code rto_name cur2 base2 := by
  intro code name cur1 base1 cur2 base2 h1 h2
  have hstep : ∀ (acc : PyResult) (ep : String),
      detectStep code name cur1 base1 acc ep = detectStep code name cur2 base2 acc ep := by
    intro acc ep
    cases acc with
    | error e => rfl
    | ok evs => simp only [detectStep, h1 ep, h2 ep]
  rw [detect_all_changes, detect_all_changes]
  exact List.foldl_ext _ _ _ (fun a b hb => hstep a b)

/-- Witness for C8: a dictionary with one extra never-consulted entry holding
None produces the same result. -/
theorem detection_deterministic_witness :
    detect_all_changes "0001" "RTO" [("scope", some Json.null)] []
      = detect_all_changes "0001" "RTO" [("scope", some Json.null), ("unused", none)] [] :=
  detection_deterministic "0001" "RTO" [("scope", some Json.null)] []
    [("scope", some Json.null), ("unused", none)] []
    (by
      intro k
      by_cases h : "scope" = k
      · subst h; rfl
      · by_cases h2 : "unused" = k
        · subst h2; rfl
        · simp [dictGet, alook, h, h2])
    (fun k => rfl)

/-- Every event produced by a single endpoint detection is fresh. -/
lemma endpoint_fresh (rto_code rto_name endpoint : String) (cur base : Option Json)
    (evs : List TriggerEvent)
    (h : detect_endpoint_changes rto_code rto_name endpoint cur base = .ok evs) :
    ∀ e ∈ evs, freshEvent e := by
  intro e he
  cases base with
  | none =>
    cases cur with
    | none =>
      simp only [detect_endpoint_changes] at h
      cases h
      simp at he
    | some c =>
      simp only [detect_endpoint_changes] at h
      cases h
      simp only [handle_new_data, List.mem_singleton] at he
      subst he
      exact ⟨rfl, rfl, rfl, rfl, rfl, rfl⟩
  | some b =>
    cases cur with
    | none =>
      simp only [detect_endpoint_changes] at h
      cases h
      simp only [handle_removed_data, List.mem_singleton] at he
      subst he
      exact ⟨rfl, rfl, rfl, rfl, rfl, rfl⟩
    | some c =>
      simp only [detect_endpoint_changes, compare_data] at h
      split at h
      · cases h; simp at he
      · split at h
        · simp only [detect_scope_changes] at h
          split at h
          · simp at h
          · split at h
            · simp at h
            · split at h
              · simp at h
              · cases h; simp at he
        · split at h
          · simp only [detect_regulatory_changes] at h
            simp at h
          · split at h
            · simp only [detect_registration_changes] at h
              split at h
              · simp at h
              · cases h; simp at he
            · cases h
              simp only [List.mem_singleton] at he
              subst he
              exact ⟨rfl, rfl, rfl, rfl, rfl, rfl⟩

/-- The endpoint fold preserves freshness of accumulated events. -/
lemma fold_fresh : ∀ (eps : List String) (rto_code rto_name : String)
    (cur base : List (String × Option Json)) (acc : PyResult),
    (∀ evs0, acc = .ok evs0 → ∀ e ∈ evs0, freshEvent e) →
    ∀ evs, eps.foldl (detectStep rto_code rto_name cur base) acc = .ok evs →
    ∀ e ∈ evs, freshEvent e := by
  intro eps
  induction eps with
  | nil =>
    intro code name cur base acc hacc evs h
    exact hacc evs h
  | cons ep eps ih =>
    intro code name cur base acc hacc evs h
    rw [List.foldl_cons] at h
    refine ih code name cur base _ ?_ evs h
    intro evs0 h0
    cases acc with
    | error er => simp [detectStep] at h0
    | ok evs1 =>
      have hacc1 := hacc evs1 rfl
      simp only [detectStep] at h0
      split at h0
      · cases h0
        exact hacc1
      · split at h0
        · rename_i es hend
          cases h0
          intro e he
          rcases List.mem_append.1 he with he | he
          · exact hacc1 e he
          · exact endpoint_fresh code name ep _ _ _ hend e he
        · simp at h0

/-- C10: every TriggerEvent constructed by the Detector starts in the initial
lifecycle state: delivery_status "pending", outreach_status "New", and
outreach_score, suggested_opening, business_implication and detected_at all
unset. -/
theorem events_created_in_initial_state :
    ∀ (rto_code rto_name : String) (cur base : List (String × Option Json))
      (evs : List TriggerEvent),
      detect_all_changes rto_code rto_name cur base = .ok evs →
      ∀ e ∈ evs, freshEvent e := by
  intro code name cur base evs h
  rw [detect_all_changes] at h
  refine fold_fresh ENDPOINTS code name cur base (.ok []) ?_ evs h
  intro evs0 h0
  cases h0
  intro e he
  simp at he

/-- Witness for C10: the single appeared event of a concrete run is fresh. -/
theorem events_created_in_initial_state_witness :
    freshEvent c10WitnessEvent :=
  events_created_in_initial_state "0001" "RTO" [("contacts", some Json.null)] []
    [c10WitnessEvent] rfl c10WitnessEvent (List.mem_singleton_self c10WitnessEvent)

/-- A loop iteration whose endpoint is absent on both sides leaves the
accumulator unchanged. -/
lemma detectStep_skip (rto_code rto_name : String)
    (cur base : List (String × Option Json)) (evs : List TriggerEvent) (ep : String)
    (hc : dictGet cur ep = none) (hb : dictGet base ep = none) :
    detectStep rto_code rto_name cur base (.ok evs) ep = .ok evs := by
  simp only [detectStep, hc, hb]

/-- A loop iteration with both sides present runs the structural comparison. -/
lemma detectStep_both (rto_code rto_name : String)
    (cur base : List (String × Option Json)) (evs : List TriggerEvent) (ep : String)
    (c b : Json) (hc : dictGet cur ep = some c) (hb : dictGet base ep = some b) :
    detectStep rto_code rto_name cur base (.ok evs) ep =
      match compare_data rto_code rto_name ep c b with
      | .ok es => .ok (evs ++ es)
      | .error e => .error e := by
  simp only [detectStep, hc, hb, detect_endpoint_changes]

/-- C1 (refuted by the code): on a both-present scope payload pair whose
structural diff holds a changed value, detect_all_changes raises
NameError("EventCategory") instead of returning a list, because differ.py
builds the event with EventCategory.SCOPE but never imports EventCategory. -/
theorem detector_raises_on_scope_diff :
    detect_all_changes "0001" "Test RTO"
        [("scope", some (.obj [("a", .int 2)]))]
        [("scope", some (.obj [("a", .int 1)]))]
      = .error (.nameError "EventCategory") := by
  have hd : diffAt "root" (.obj [("a", .int 1)]) (.obj [("a", .int 2)])
      = [.values_changed (keyPath "root" "a") (.int 1) (.int 2)] := by
    simp [diffAt, diffObj, diffFind, hasKey, alook]
  have hcomp : compare_data "0001" "Test RTO" "scope" (.obj [("a", .int 2)]) (.obj [("a", .int 1)])
      = .error (.nameError "EventCategory") := by
    simp [compare_data, hd, detect_scope_changes, diffIterAdded, diffIterRemoved, diffValuesChanged]
  rw [detect_all_changes, ENDPOINTS, List.foldl_cons]
  rw [detectStep_both "0001" "Test RTO" [("scope", some (.obj [("a", .int 2)]))] [("scope", some (.obj [("a", .int 1)]))] [] "scope" (.obj [("a", .int 2)]) (.obj [("a", .int 1)]) rfl rfl, hcomp]
  rw [detect_foldl_error]

/-- C4 (refuted by the code): a both-present regulatory payload pair with a
non-empty diff raises NameError("EventCategory") in
_detect_regulatory_changes instead of producing the single REGULATORY_NEW
event, because differ.py never imports EventCategory. -/
theorem regulatory_diff_raises :
    detect_all_changes "0001" "Test RTO"
        [("regulatory", some (.obj [("decision", .str "Audit")]))]
        [("regulatory", some (.obj [("decision", .str "None")]))]
      = .error (.nameError "EventCategory") := by
  have hd : diffAt "root" (.obj [("decision", .str "None")]) (.obj [("decision", .str "Audit")])
      = [.values_changed (keyPath "root" "decision") (.str "None") (.str "Audit")] := by
    simp [diffAt, diffObj, diffFind, hasKey, alook]
  have hcomp : compare_data "0001" "Test RTO" "regulatory"
      (.obj [("decision", .str "Audit")]) (.obj [("decision", .str "None")])
      = .error (.nameError "EventCategory") := by
    simp [compare_data, hd, detect_regulatory_changes]
  rw [detect_all_changes, ENDPOINTS, List.foldl_cons]
  rw [detectStep_skip "0001" "Test RTO" [("regulatory", some (.obj [("decision", .str "Audit")]))] [("regulatory", some (.obj [("decision", .str "None")]))] [] "scope" rfl rfl]
  rw [List.foldl_cons]
  rw [detectStep_both "0001" "Test RTO" [("regulatory", some (.obj [("decision", .str "Audit")]))] [("regulatory", some (.obj [("decision", .str "None")]))] [] "regulatory" (.obj [("decision", .str "Audit")]) (.obj [("decision", .str "None")]) rfl rfl, hcomp]
  rw [detect_foldl_error]

/-- C5 (partly refuted by the code): the path-text subtype selection follows
the claimed rules and a diff holding only item added/removed entries yields
zero events, but the scenario of spec section 8 (registration status Active
to Suspended) raises NameError("EventCategory") inside
_detect_registration_changes instead of producing the
REGISTRATION_STATUS_CHANGED event, because differ.py never imports
EventCategory. -/
theorem registration_status_change_raises :
    regTypeForPath (keyPath "root" "status") = .REGISTRATION_STATUS_CHANGED
    ∧ regTypeForPath (keyPath "root" "expiry_date") = .REGISTRATION_EXPIRY_CHANGED
    ∧ regTypeForPath (keyPath "root" "other_field") = .REGISTRATION_STATUS_CHANGED
    ∧ detect_registration_changes "0001" "Test RTO" (.obj []) (.obj [])
        [.iter_item_added "root" .null, .iter_item_removed "root" .null] = .ok []
    ∧ detect_all_changes "0001" "Test RTO"
        [("registration", some (.obj [("status", .str "Suspended")]))]
        [("registration", some (.obj [("status", .str "Active")]))]
      = .error (.nameError "EventCategory") := by
  refine ⟨rfl, rfl, rfl, rfl, ?_⟩
  have hd : diffAt "root" (.obj [("status", .str "Active")]) (.obj [("status", .str "Suspended")])
      = [.values_changed (keyPath "root" "status") (.str "Active") (.str "Suspended")] := by
    simp [diffAt, diffObj, diffFind, hasKey, alook]
  have hcomp : compare_data "0001" "Test RTO" "registration"
      (.obj [("status", .str "Suspended")]) (.obj [("status", .str "Active")])
      = .error (.nameError "EventCategory") := by
    simp [compare_data, hd, detect_registration_changes, diffValuesChanged]
  rw [detect_all_changes, ENDPOINTS, List.foldl_cons]
  rw [detectStep_skip "0001" "Test RTO" [("registration", some (.obj [("status", .str "Suspended")]))] [("registration", some (.obj [("status", .str "Active")]))] [] "scope" rfl rfl]
  rw [List.foldl_cons]
  rw [detectStep_skip "0001" "Test RTO" [("registration", some (.obj [("status", .str "Suspended")]))] [("registration", some (.obj [("status", .str "Active")]))] [] "regulatory" rfl rfl]
  rw [List.foldl_cons]
  rw [detectStep_both "0001" "Test RTO" [("registration", some (.obj [("status", .str "Suspended")]))] [("registration", some (.obj [("status", .str "Active")]))] [] "registration" (.obj [("status", .str "Suspended")]) (.obj [("status", .str "Active")]) rfl rfl, hcomp]
  rw [detect_foldl_error]

/-- Counterexample for C9: two payloads equal as maps (a permutation of the
same key-value pairs) produce appeared events with different serialized
new_value strings, so the emitted values are not stable-key-ordered. -/
theorem serialization_not_key_order_stable :
    List.Perm [("a", Json.int 1), ("b", Json.int 2)] [("b", Json.int 2), ("a", Json.int 1)]
    ∧ firstNewValue (detect_all_changes "0001" "N"
        [("contacts", some (.obj [("a", .int 1), ("b", .int 2)]))] [])
        = some (some "\x7b\"a\": 1, \"b\": 2\x7d")
    ∧ firstNewValue (detect_all_changes "0001" "N"
        [("contacts", some (.obj [("b", .int 2), ("a", .int 1)]))] [])
        = some (some "\x7b\"b\": 2, \"a\": 1\x7d")
    ∧ ("\x7b\"a\": 1, \"b\": 2\x7d" : String) ≠ "\x7b\"b\": 2, \"a\": 1\x7d" :=
  ⟨List.Perm.swap ("b", Json.int 2) ("a", Json.int 1) [], rfl, rfl, by decide⟩

/-- C9 (amended): the Detector serializes event old/new values with
insertion-order json.dumps (no sort_keys): appeared events carry the dump of
the new payload, disappeared events the dump of the removed payload, and the
generic both-present fallback carries the dumps of both whole payloads. -/
theorem event_values_insertion_order_dumps :
    ∀ (rto_code rto_name endpoint : String) (x b c : Json),
      (∃ e, handle_new_data rto_code rto_name endpoint x = [e]
        ∧ e.new_value = some (pyDumps x) ∧ e.old_value = none)
      ∧ (∃ e, handle_removed_data rto_code rto_name endpoint x = [e]
        ∧ e.old_value = some (pyDumps x) ∧ e.new_value = none)
      ∧ (∀ ep2 : String, diffAt "root" b c ≠ [] →
          ep2 ≠ "scope" → ep2 ≠ "regulatory" → ep2 ≠ "registration" →
          ∃ e, compare_data rto_code rto_name ep2 c b = .ok [e]
            ∧ e.old_value = some (pyDumps b) ∧ e.new_value = some (pyDumps c)) := by
  intro code name ep x b c
  refine ⟨⟨_, rfl, rfl, rfl⟩, ⟨_, rfl, rfl, rfl⟩, ?_⟩
  intro ep2 h1 h2 h3 h4
  have hne : (diffAt "root" b c).isEmpty = false := by simpa using h1
  simp only [compare_data, hne, Bool.false_eq_true, if_false, if_neg h2, if_neg h3, if_neg h4]
  exact ⟨_, rfl, rfl, rfl⟩

/-- Witness for the amended C9: a contacts comparison between two distinct
integer payloads emits the generic event carrying both dumps. -/
theorem event_values_insertion_order_dumps_witness :
    ∃ e, compare_data "0001" "RTO" "contacts" (.int 2) (.int 1) = .ok [e]
      ∧ e.old_value = some (pyDumps (.int 1)) ∧ e.new_value = some (pyDumps (.int 2)) :=
  (event_values_insertion_order_dumps "0001" "RTO" "contacts" Json.null (.int 1) (.int 2)).2.2
    "contacts" (by simp [diffAt]) (by decide) (by decide) (by decide)
